import Mathlib

/-!
Shallow embedding of the Math-Tutor submission-grading pipeline.

Source files embedded here:
* `backend/services/grading_service.py` (Math-Tutor-Backend tree): `check_relevance`,
  `extract_solution_structure`, `verify_answer_correctness`, `verify_solution_logical_flow`.
* `backend/routes/submissions/grading.py` (Math-Tutor-Backend tree): the
  `grade_submission` orchestrator (relevance gate, structure extraction, proof
  heuristic, verifier calls with their try/except fallbacks, waterfall scoring,
  feedback, delete-then-insert persistence, status update).
* `backend/services/grading_service.py` (second `backend` tree): `_normalize_answer_text`
  and the exact-match fast path of its `verify_answer_correctness`.

External LLM/embedding capabilities are modelled as oracle parameters: each call
site receives the outcome the external call would produce (`Except String J`,
where `J` is the parsed-JSON shape with optional fields, mirroring Python
`dict.get` defaults).  Every service function also reports whether the external
capability was actually invoked on that run (the `Bool` component), so
"no external call" claims are statable.

Python string semantics are embedded over `List Char`: `str.strip` over the
ASCII whitespace characters, `str.replace` as leftmost non-overlapping
replacement, `str.lower` as ASCII lowercasing, truthiness of a string as
non-emptiness. Python floats are modelled as `ℚ`, ints as `Int`; nullable DB
text columns are modelled as `String` with `""` for NULL (every use in the
embedded code goes through Python truthiness, where None and "" coincide).
-/

namespace MathTutor

/-- ASCII whitespace recognised by Python `str.strip()` (space, tab, LF, CR,
vertical tab, form feed). -/
def pyWhitespace (c : Char) : Bool :=
  c = ' ' || c = '\t' || c = '\n' || c = '\r' || c = Char.ofNat 11 || c = Char.ofNat 12

def pystripL (s : List Char) : List Char :=
  ((s.dropWhile pyWhitespace).reverse.dropWhile pyWhitespace).reverse

/-- Python `s.strip()`. -/
def pystrip (s : String) : String :=
  ⟨pystripL s.data⟩

/-- Leftmost, non-overlapping replacement of the pattern `p :: ps` by `rep`,
the semantics of Python `str.replace` for a non-empty pattern.  The `fuel`
argument makes the recursion structural (each step consumes at least one
character, so `fuel = s.length` always suffices and the `0, s => s` arm is
reached only at `s = []`). -/
def replaceAllFrom (p : Char) (ps rep : List Char) : Nat → List Char → List Char
  | _, [] => []
  | 0, s => s
  | fuel + 1, c :: rest =>
    if (p :: ps).isPrefixOf (c :: rest) then
      rep ++ replaceAllFrom p ps rep fuel (rest.drop ps.length)
    else
      c :: replaceAllFrom p ps rep fuel rest

/-- Python `s.replace(pat, rep)`; all patterns used by the embedded code are
non-empty, and for an empty pattern we return `s` unchanged. -/
def pyreplace (s pat rep : String) : String :=
  match pat.data with
  | [] => s
  | p :: ps => ⟨replaceAllFrom p ps rep.data s.data.length s.data⟩

/-- Python `s.lower()`, restricted to ASCII (sufficient for the embedded
keyword tests, which are ASCII). -/
def pylower (s : String) : String :=
  ⟨s.data.map Char.toLower⟩

/-- Python `a or b` on strings (first truthy operand, where `""` models both
the empty string and None). -/
def pyOr (a b : String) : String :=
  if a ≠ "" then a else b

/-- Python truthiness of an optional string (`if error_summary:`): present and
non-empty. -/
def optStrTruthy : Option String → Bool
  | some s => s ≠ ""
  | none => false

instance {ε α : Type} [DecidableEq ε] [DecidableEq α] : DecidableEq (Except ε α) := fun a b =>
  match a, b with
  | .ok x, .ok y =>
    if h : x = y then .isTrue (by rw [h]) else .isFalse (fun he => h (Except.ok.inj he))
  | .ok _, .error _ => .isFalse (fun he => Except.noConfusion he)
  | .error _, .ok _ => .isFalse (fun he => Except.noConfusion he)
  | .error x, .error y =>
    if h : x = y then .isTrue (by rw [h]) else .isFalse (fun he => h (Except.error.inj he))

/-- Parsed JSON returned by the relevance-classification capability
(`check_relevance`); fields may be absent, read via `.get` with defaults. -/
structure RelevanceJSON where
  is_relevant : Option Bool
  reason : Option String
deriving DecidableEq, Repr

/-- Parsed JSON returned by the structure-extraction capability. -/
structure ExtractJSON where
  is_proof : Option Bool
  student_answer : Option String
  student_steps : Option (List String)
deriving DecidableEq, Repr

/-- Parsed JSON returned by the answer-equivalence capability. -/
structure AnswerJSON where
  is_correct : Option Bool
  confidence : Option ℚ
  reasoning : Option String
deriving DecidableEq, Repr

/-- Parsed JSON returned by the logic-evaluation capability. -/
structure LogicJSON where
  logical_score : Option ℚ
  step_count : Option Int
  valid_steps : Option Int
  first_error_step_index : Option Int
  error_summary : Option String
deriving DecidableEq, Repr

/-- The dict returned by `verify_answer_correctness` (and its substitutes built
by the orchestrator).  `match_type`/`reasoning` are optional because the
orchestrator's exception-fallback dict omits them. -/
structure AnswerVerdict where
  is_correct : Bool
  confidence : ℚ
  match_type : Option String
  reasoning : Option String
deriving DecidableEq, Repr

/-- The dict returned by `verify_solution_logical_flow` (and the orchestrator's
exception-fallback substitute). -/
structure LogicVerdict where
  logical_score : ℚ
  step_count : Int
  valid_steps : Int
  first_error_step_index : Int
  error_summary : Option String
deriving DecidableEq, Repr

/-- `check_relevance(student_text, problem_text)` from
`Math-Tutor-Backend/backend/services/grading_service.py` lines 19-65.
`ext` is the outcome the classification capability would produce; the second
component of the result records whether that capability was invoked.
Empty/whitespace-only text returns `(False, "Empty submission")` with no call;
any exception from the call is caught and the function fails open. -/
def check_relevance (ext : Except String RelevanceJSON)
    (student_text problem_text : String) : (Bool × String) × Bool :=
  if student_text = "" ∨ pystrip student_text = "" then
    ((false, "Empty submission"), false)
  else
    match ext with
    | .ok result =>
      ((result.is_relevant.getD false, result.reason.getD "No reason provided"), true)
    | .error _ =>
      ((true, "Relevance check error — defaulting to relevant"), true)

/-- `extract_solution_structure(ocr_text)` from the same file, lines 68-118.
Short input (stripped length < 10) short-circuits without an external call;
on capability success the `is_proof` key is defaulted in if missing; on
capability failure the whole text becomes a single step. -/
def extract_solution_structure (ext : Except String ExtractJSON)
    (ocr_text : String) : ExtractJSON × Bool :=
  if ocr_text = "" ∨ (pystrip ocr_text).length < 10 then
    ({ is_proof := some false, student_answer := some (pyOr ocr_text ""),
       student_steps := some [] }, false)
  else
    match ext with
    | .ok result =>
      ({ result with is_proof := some (result.is_proof.getD false) }, true)
    | .error _ =>
      ({ is_proof := some false, student_answer := some "",
         student_steps := some [ocr_text] }, true)

/-- `verify_answer_correctness(student_answer, correct_answer)` from
`Math-Tutor-Backend/backend/services/grading_service.py` lines 121-179.
Missing answer returns a deterministic negative verdict with no call; the
capability's JSON is read with `.get` defaults and the ≥ 0.85 branch appends
to the reasoning; a capability exception is re-raised as an explicit
`RuntimeError` (modelled as `Except.error` with the exact message prefix). -/
def verify_answer_correctness (ext : Except String AnswerJSON)
    (student_answer correct_answer : String) :
    Except String AnswerVerdict × Bool :=
  if student_answer = "" ∨ correct_answer = "" then
    (.ok { is_correct := false, confidence := 0, match_type := some "openai",
           reasoning := some "Missing answer" }, false)
  else
    match ext with
    | .ok result =>
      let is_correct := result.is_correct.getD false
      let confidence := result.confidence.getD 0
      let reasoning := result.reasoning.getD ""
      let adjusted :=
        if is_correct ∧ confidence ≥ 0.85 then
          (true, reasoning ++ " (Marked as correct due to high confidence despite format differences)")
        else
          (is_correct, reasoning)
      (.ok { is_correct := adjusted.1, confidence := confidence,
             match_type := some "openai", reasoning := some adjusted.2 }, true)
    | .error e =>
      (.error ("Answer verification failed — OpenAI API error: " ++ e), true)

/-- `verify_solution_logical_flow(student_solution, reference_solution,
correct_answer)` from the same file, lines 182-270. Empty/whitespace-only
input short-circuits to the fixed zero verdict with no external call; a
negative `first_error_step_index` from the capability is normalized to 0 and a
(truthy) error summary cleared; a capability exception is re-raised as an
explicit `RuntimeError`. -/
def verify_solution_logical_flow (ext : Except String LogicJSON)
    (student_solution reference_solution correct_answer : String) :
    Except String LogicVerdict × Bool :=
  if student_solution = "" ∨ pystrip student_solution = "" then
    (.ok { logical_score := 0, step_count := 0, valid_steps := 0,
           first_error_step_index := 0,
           error_summary := some "No solution steps found" }, false)
  else
    match ext with
    | .ok result =>
      let logical_score := result.logical_score.getD 0
      let step_count := result.step_count.getD 0
      let valid_steps := result.valid_steps.getD 0
      let first_error_idx := result.first_error_step_index.getD (-1)
      let error_summary := result.error_summary
      let normalized :=
        if first_error_idx < 0 then
          (0, if optStrTruthy error_summary then none else error_summary)
        else
          (first_error_idx, error_summary)
      (.ok { logical_score := logical_score, step_count := step_count,
             valid_steps := valid_steps, first_error_step_index := normalized.1,
             error_summary := normalized.2 }, true)
    | .error e =>
      (.error ("Solution evaluation failed — OpenAI API error: " ++ e), true)

/-- The three-character string `U+00E2 U+02C6 U+2019` that appears literally in
`backend/services/grading_service.py` line 29 of the second `backend` tree
(the Windows-1252 mojibake of the UTF-8 bytes of U+2212, the unicode minus). -/
def mojibakeMinus : String :=
  ⟨[Char.ofNat 0xE2, Char.ofNat 0x2C6, Char.ofNat 0x2019]⟩

/-- The one-character string holding the actual unicode minus sign U+2212. -/
def unicodeMinus : String :=
  ⟨[Char.ofNat 0x2212]⟩

/-- `_normalize_answer_text(text)` from `backend/services/grading_service.py`
(second `backend` tree) lines 22-30: strip, remove every space, then replace
the literal `mojibakeMinus` sequence by the ASCII hyphen. -/
def normalize_answer_text (text : String) : String :=
  if text = "" then ""
  else
    let t := pystrip text
    let t := pyreplace t " " ""
    let t := pyreplace t mojibakeMinus "-"
    t

/-- `verify_answer_correctness(student_answer, correct_answer)` from
`backend/services/grading_service.py` (second `backend` tree) lines 33-106:
missing-answer short circuit, then the normalized exact-match fast path, then
the external equivalence call (whose exception handler falls back to an
embedding-similarity verdict, abstracted here as the `fallback` parameter
since it calls out to two further external embedding services).  The `Bool`
component records whether the external equivalence capability was invoked. -/
def verify_answer_correctness_sb (ext : Except String AnswerJSON)
    (fallback : AnswerVerdict) (student_answer correct_answer : String) :
    AnswerVerdict × Bool :=
  if student_answer = "" ∨ correct_answer = "" then
    ({ is_correct := false, confidence := 0, match_type := some "openai",
       reasoning := some "Missing answer" }, false)
  else
    let sa := normalize_answer_text student_answer
    let ca := normalize_answer_text correct_answer
    if sa ≠ "" ∧ sa = ca then
      ({ is_correct := true, confidence := 1, match_type := some "exact",
         reasoning := none }, false)
    else
      match ext with
      | .ok result =>
        let is_correct := result.is_correct.getD false
        let confidence := result.confidence.getD 0
        let reasoning := result.reasoning.getD ""
        let adjusted :=
          if ¬ is_correct ∧ confidence ≥ 0.85 then
            (true, reasoning ++ " (Marked as correct due to high confidence despite format differences)")
          else
            (is_correct, reasoning)
        ({ is_correct := adjusted.1, confidence := confidence,
           match_type := some "openai", reasoning := some adjusted.2 }, true)
      | .error _ => (fallback, true)

/-- One row of the orchestrator's SELECT (grading.py lines 31-52): the
`problem_submissions` columns joined with the `omni_math_data` columns, in
the unpacking order of line 70. -/
structure FetchedRow where
  problem_id : Int
  ocr_text : String
  student_solution : String
  student_answer : String
  correct_answer : String
  ref_solution : String
  domain : String
  problem_text : String
deriving DecidableEq, Repr

/-- The external capabilities consumed by one grading pass, each as a function
from the exact arguments the code passes to the outcome the call would
produce. -/
structure GradingEnv where
  relevance : String → String → Except String RelevanceJSON
  extract : String → Except String ExtractJSON
  answer : String → String → Except String AnswerJSON
  logic : String → String → String → Except String LogicJSON
  feedback : String → String → String → String → String → Bool → Except String String

/-- One persisted `grading_results` row, with the columns the INSERT statements
of grading.py write (lines 88-104 and 202-226). -/
structure GRRow where
  submission_id : Int
  problem_id : Int
  answer_correctness : ℚ
  answer_is_correct : Bool
  logical_flow_score : ℚ
  first_error_step_index : Int
  error_summary : Option String
  final_score : ℚ
  percentage : ℚ
  grading_breakdown : Option String
  hint_provided : String
deriving DecidableEq, Repr

/-- Observation record for one per-problem pass of the orchestrator loop:
which pipeline stages ran, whether the answer-equivalence capability was
invoked, and which AnswerVerdict reached the score composer. -/
structure StageTrace where
  relevanceExtCalled : Bool
  extractorInvoked : Bool
  answerVerifierInvoked : Bool
  answerExtCalled : Bool
  logicVerifierInvoked : Bool
  composerInvoked : Bool
  feedbackInvoked : Bool
  arUsed : Option AnswerVerdict
deriving DecidableEq, Repr

/-- grading.py line 74: `text_to_check = ocr_text or student_solution or ""`. -/
def textToCheck (r : FetchedRow) : String :=
  pyOr r.ocr_text (pyOr r.student_solution "")

/-- The relevance verdict the orchestrator obtains for a row
(grading.py line 76). -/
def relevanceOf (env : GradingEnv) (r : FetchedRow) : Bool × String :=
  (check_relevance (env.relevance (textToCheck r) r.problem_text)
    (textToCheck r) r.problem_text).1

/-- grading.py lines 107-117: structure extraction for a row, producing
`(structured_answer, structured_steps, is_proof-before-heuristic)` together
with (stage entered, extraction capability invoked). -/
def structureOf (env : GradingEnv) (r : FetchedRow) :
    (String × String × Bool) × (Bool × Bool) :=
  if r.ocr_text ≠ "" then
    let res := extract_solution_structure (env.extract r.ocr_text) r.ocr_text
    ((res.1.student_answer.getD "",
      String.intercalate "\n" (res.1.student_steps.getD []),
      res.1.is_proof.getD false), (true, res.2))
  else
    ((pyOr r.student_answer "", pyOr r.student_solution "", false), (false, false))

/-- Python `pat in s` on strings: contiguous-substring test. -/
def isSubstringOf (pat : List Char) : List Char → Bool
  | [] => pat.isEmpty
  | c :: rest => pat.isPrefixOf (c :: rest) || isSubstringOf pat rest

/-- grading.py lines 119-123: the proof-keyword heuristic,
`any(k in problem_text.lower() for k in ["prove", "show that", "demonstrate"])`. -/
def hasProofKeyword (problem_text : String) : Bool :=
  ["prove", "show that", "demonstrate"].any
    (fun k => isSubstringOf k.data (pylower problem_text).data)

/-- The final proof-mode flag for a row: the extractor's flag, overridden to
true when the problem text is truthy and contains a proof keyword. -/
def isProofFor (env : GradingEnv) (r : FetchedRow) : Bool :=
  let is_proof := (structureOf env r).1.2.2
  if ¬ is_proof ∧ r.problem_text ≠ "" then hasProofKeyword r.problem_text
  else is_proof

/-- grading.py lines 149-186: the waterfall score composition, returning the
percentage and the (possibly overridden) `answer_correct` flag. -/
def waterfall (is_proof answer_correct : Bool) (logic_score : ℚ) : ℚ × Bool :=
  if is_proof then
    if logic_score ≥ 0.8 then (100, true)
    else if logic_score ≥ 0.5 then (75, true)
    else if logic_score ≥ 0.3 then (40, false)
    else (0, false)
  else if answer_correct then
    if logic_score ≥ 0.7 then (100, answer_correct)
    else if logic_score ≥ 0.4 then (80, answer_correct)
    else (40, answer_correct)
  else
    if logic_score ≥ 0.8 then (60, answer_correct)
    else if logic_score ≥ 0.4 then (30, answer_correct)
    else (0, answer_correct)

/-- The score-composition table transcribed from the specification's own words
(§4.5 of the spec / claim C1), for comparison with `waterfall`. -/
def spec_compose (is_proof answer_correct : Bool) (logical_score : ℚ) : ℚ × Bool :=
  if is_proof then
    if logical_score ≥ 0.8 then (100, true)
    else if logical_score ≥ 0.5 then (75, true)
    else if logical_score ≥ 0.3 then (40, false)
    else (0, false)
  else
    if answer_correct then
      (if logical_score ≥ 0.7 then 100
       else if logical_score ≥ 0.4 then 80
       else 40, answer_correct)
    else
      (if logical_score ≥ 0.8 then 60
       else if logical_score ≥ 0.4 then 30
       else 0, answer_correct)

/-- One iteration of the orchestrator's per-row loop (grading.py lines 69-227):
relevance gate with irrelevance short-circuit insert, structure extraction,
proof heuristic, answer verification (proof bypass / try-except fallback),
logical-flow verification (try-except fallback), waterfall scoring, feedback
(try-except fallback), and the produced `grading_results` row. -/
def processRow (env : GradingEnv) (sid : Int) (r : FetchedRow) :
    GRRow × StageTrace :=
  let rel := check_relevance (env.relevance (textToCheck r) r.problem_text)
    (textToCheck r) r.problem_text
  let is_relevant := rel.1.1
  let relevance_reason := rel.1.2
  if ¬ is_relevant then
    let irrelevance_feedback :=
      "Your submission does not appear to be an attempt at the assigned problem. Reason: "
        ++ relevance_reason
    ({ submission_id := sid, problem_id := r.problem_id,
       answer_correctness := 0, answer_is_correct := false,
       logical_flow_score := 0, first_error_step_index := 0,
       error_summary := some ("Submission irrelevant: " ++ relevance_reason),
       final_score := 0, percentage := 0, grading_breakdown := none,
       hint_provided := irrelevance_feedback },
     { relevanceExtCalled := rel.2, extractorInvoked := false,
       answerVerifierInvoked := false, answerExtCalled := false,
       logicVerifierInvoked := false, composerInvoked := false,
       feedbackInvoked := false, arUsed := none })
  else
    let st := structureOf env r
    let structured_answer := st.1.1
    let structured_steps := st.1.2.1
    let is_proof := isProofFor env r
    let arc :=
      if is_proof then
        (({ is_correct := true, confidence := 1,
            match_type := some "proof_bypass", reasoning := none } : AnswerVerdict),
         (false, false))
      else
        match verify_answer_correctness
            (env.answer structured_answer r.correct_answer)
            structured_answer r.correct_answer with
        | (.ok v, called) => (v, (true, called))
        | (.error _, called) =>
          (({ is_correct := false, confidence := 0, match_type := none,
              reasoning := none } : AnswerVerdict), (true, called))
    let ar := arc.1
    let src :=
      match verify_solution_logical_flow
          (env.logic structured_steps (pyOr r.ref_solution "") (pyOr r.correct_answer ""))
          structured_steps (pyOr r.ref_solution "") (pyOr r.correct_answer "") with
      | (.ok v, called) => (v, called)
      | (.error _, called) =>
        (({ logical_score := 0, step_count := 0, valid_steps := 0,
            first_error_step_index := 0,
            error_summary := some "Evaluation failed" } : LogicVerdict), called)
    let sr := src.1
    let answer_correct := ar.is_correct
    let logic_score := sr.logical_score
    let pw := waterfall is_proof answer_correct logic_score
    let percentage := pw.1
    let answer_correct := pw.2
    let final_score := percentage / 100
    let hint_provided :=
      match env.feedback (pyOr r.problem_text "") structured_answer
          (pyOr r.correct_answer "") structured_steps (pyOr r.ref_solution "")
          answer_correct with
      | .ok s => s
      | .error _ => "Could not generate feedback at this time."
    ({ submission_id := sid, problem_id := r.problem_id,
       answer_correctness := ar.confidence, answer_is_correct := ar.is_correct,
       logical_flow_score := sr.logical_score,
       first_error_step_index := sr.first_error_step_index,
       error_summary := sr.error_summary, final_score := final_score,
       percentage := percentage, grading_breakdown := none,
       hint_provided := hint_provided },
     { relevanceExtCalled := rel.2, extractorInvoked := st.2.1,
       answerVerifierInvoked := arc.2.1, answerExtCalled := arc.2.2,
       logicVerifierInvoked := true, composerInvoked := true,
       feedbackInvoked := true, arUsed := some ar })

/-- One `problem_submissions` row (the columns the orchestrator reads). -/
structure PSRow where
  submission_id : Int
  problem_id : Int
  ocr_text : String
  student_solution : String
  student_answer : String
deriving DecidableEq, Repr

/-- One `omni_math_data` row (the columns the orchestrator reads);
`problem_id` is the table's key. -/
structure OmniRow where
  problem_id : Int
  answer : String
  solution : String
  domain : String
  problem : String
deriving DecidableEq, Repr

/-- One `test_submissions` row (the columns the orchestrator touches). -/
structure TSRow where
  submission_id : Int
  status : String
deriving DecidableEq, Repr

/-- The database state the grading route reads and writes. -/
structure DB where
  problem_submissions : List PSRow
  omni_math_data : List OmniRow
  grading_results : List GRRow
  test_submissions : List TSRow

/-- Python truthiness of the optional `problem_id` route parameter
(`if problem_id:` on grading.py line 29): present and non-zero. -/
def pidTruthy : Option Int → Bool
  | some pid => pid ≠ 0
  | none => false

/-- The SELECT of grading.py lines 29-54: `problem_submissions` rows for the
submission (and, when a truthy `problem_id` is passed, for that problem), inner
joined with `omni_math_data` on `problem_id` (a key of that table, hence the
first matching row). -/
def fetchRows (db : DB) (sid : Int) (pid : Option Int) : List FetchedRow :=
  (db.problem_submissions.filter (fun p =>
      p.submission_id == sid &&
        (if pidTruthy pid then p.problem_id == pid.getD 0 else true))).filterMap
    (fun p =>
      (db.omni_math_data.find? (fun o => o.problem_id == p.problem_id)).map
        (fun o =>
          { problem_id := p.problem_id, ocr_text := p.ocr_text,
            student_solution := p.student_solution,
            student_answer := p.student_answer, correct_answer := o.answer,
            ref_solution := o.solution, domain := o.domain,
            problem_text := o.problem }))

/-- The not-found error raised on grading.py line 56. -/
structure HTTPError where
  status_code : Nat
  detail : String
deriving DecidableEq, Repr

/-- The success payload returned on grading.py line 234. -/
structure GradeResponse where
  submission_id : Int
  message : String
deriving DecidableEq, Repr

/-- `grade_submission(submission_id, problem_id)` from grading.py lines 23-236:
fetch the joined rows; with no rows, raise 404 before any write (the
transaction leaves the database untouched); otherwise delete every
`grading_results` row of this submission, insert one freshly produced row per
fetched row in order, and mark the submission graded.  The returned `DB` is
the post-transaction state. -/
def grade_submission (env : GradingEnv) (db : DB) (sid : Int)
    (pid : Option Int) : Except HTTPError GradeResponse × DB :=
  let rows := fetchRows db sid pid
  if rows.isEmpty then
    (.error { status_code := 404, detail := "No problem submissions found" }, db)
  else
    let inserted := rows.map (fun r => (processRow env sid r).1)
    (.ok { submission_id := sid, message := "Grading completed" },
     { db with
       grading_results :=
         (db.grading_results.filter (fun g => !(g.submission_id == sid))) ++ inserted,
       test_submissions :=
         db.test_submissions.map (fun t =>
           if t.submission_id == sid then { t with status := "graded" } else t) })

/-! Concrete fixtures used by witness and counterexample theorems. -/

/-- An environment whose every capability errors. -/
def envStub : GradingEnv where
  relevance := fun _ _ => .error "stub"
  extract := fun _ => .error "stub"
  answer := fun _ _ => .error "stub"
  logic := fun _ _ _ => .error "stub"
  feedback := fun _ _ _ _ _ _ => .error "stub"

/-- An environment whose every capability succeeds deterministically. -/
def envHappy : GradingEnv where
  relevance := fun _ _ => .ok ⟨some true, some "on topic"⟩
  extract := fun _ => .ok ⟨some false, some "7", some ["step one", "step two"]⟩
  answer := fun _ _ => .ok ⟨some true, some 0.9, some "match"⟩
  logic := fun _ _ _ => .ok ⟨some 0.9, some 2, some 2, some (-1), none⟩
  feedback := fun _ _ _ _ _ _ => .ok "well done"

/-- `envHappy` with both verifier capabilities raising. -/
def envVerifierDown : GradingEnv :=
  { envHappy with answer := fun _ _ => .error "boom", logic := fun _ _ _ => .error "boom2" }

/-- `envHappy` with the relevance classifier judging the text off-topic. -/
def envIrrelevant : GradingEnv :=
  { envHappy with relevance := fun _ _ => .ok ⟨some false, some "a photo of a cat"⟩ }

/-- A database holding one problem submission for submission 1 / problem 7,
one stale grading result (for problem 3) under the same submission id, and a
processing-status row. -/
def dbOne : DB where
  problem_submissions :=
    [{ submission_id := 1, problem_id := 7,
       ocr_text := "student work: 3+4=7 so answer 7",
       student_solution := "", student_answer := "" }]
  omni_math_data :=
    [{ problem_id := 7, answer := "7", solution := "3+4=7", domain := "arith",
       problem := "Compute 3+4." }]
  grading_results :=
    [{ submission_id := 1, problem_id := 3, answer_correctness := 0,
       answer_is_correct := false, logical_flow_score := 0,
       first_error_step_index := 0, error_summary := none, final_score := 0,
       percentage := 0, grading_breakdown := none, hint_provided := "old row" }]
  test_submissions := [{ submission_id := 1, status := "processing" }]

/-- A database whose only problem submission belongs to submission 2. -/
def dbOtherSubmission : DB where
  problem_submissions :=
    [{ submission_id := 2, problem_id := 7,
       ocr_text := "student work: 3+4=7 so answer 7",
       student_solution := "", student_answer := "" }]
  omni_math_data :=
    [{ problem_id := 7, answer := "7", solution := "3+4=7", domain := "arith",
       problem := "Compute 3+4." }]
  grading_results := []
  test_submissions := [{ submission_id := 2, status := "processing" }]

/-- A fetched row whose problem statement carries a proof keyword and whose
submission came in without OCR text. -/
def rowProof : FetchedRow where
  problem_id := 7
  ocr_text := ""
  student_solution := "assume x, derive y, conclude"
  student_answer := ""
  correct_answer := "7"
  ref_solution := "3+4=7"
  domain := "arith"
  problem_text := "Prove that 3+4=7."

/-- A fetched calculation row with OCR text. -/
def rowCalc : FetchedRow where
  problem_id := 7
  ocr_text := "student work: 3+4=7 so answer 7"
  student_solution := ""
  student_answer := ""
  correct_answer := "7"
  ref_solution := "3+4=7"
  domain := "arith"
  problem_text := "Compute 3+4."

end MathTutor

namespace MathTutor

/-! Claim theorems. -/

/-- C1: the score composition step of the grading pipeline is a pure function
of `(is_proof, answer_correct, logical_score)` reproducing exactly the
waterfall table of the specification (`spec_compose` transcribes the claim's
own table), and on every orchestrator path `final_score = percentage / 100`. -/
theorem waterfall_matches_spec_table :
    (∀ (is_proof answer_correct : Bool) (logical_score : ℚ),
        waterfall is_proof answer_correct logical_score =
          spec_compose is_proof answer_correct logical_score) ∧
    (∀ (env : GradingEnv) (sid : Int) (r : FetchedRow),
        (processRow env sid r).1.final_score =
          (processRow env sid r).1.percentage / 100) := by
  constructor
  · intro is_proof answer_correct logical_score
    cases is_proof <;> cases answer_correct <;>
      simp only [waterfall, spec_compose, Bool.false_eq_true, if_false, if_true,
        Bool.true_eq_false] <;> split_ifs <;> rfl
  · intro env sid r
    by_cases h : (check_relevance (env.relevance (textToCheck r) r.problem_text)
        (textToCheck r) r.problem_text).1.1 = true
    · simp [processRow, h]
    · simp [processRow, h]

/-- C4 (code evaluation at the failing input): `_normalize_answer_text` does
not unify the real unicode minus U+2212 with the ASCII hyphen — the literal it
replaces is the three-character mojibake `U+00E2 U+02C6 U+2019` — so for
student answer "-5" against reference answer "−5" the normalized forms differ
and both the fast-path verifier and the grading pipeline's verifier invoke the
external equivalence capability (there is no exact match with zero external
calls). -/
theorem normalize_misses_unicode_minus :
    normalize_answer_text "-5" = "-5" ∧
    normalize_answer_text (unicodeMinus ++ "5") = unicodeMinus ++ "5" ∧
    normalize_answer_text (unicodeMinus ++ "5") ≠ normalize_answer_text "-5" ∧
    normalize_answer_text (mojibakeMinus ++ "5") = "-5" ∧
    (∀ (ext : Except String AnswerJSON) (fb : AnswerVerdict),
        (verify_answer_correctness_sb ext fb "-5" (unicodeMinus ++ "5")).2 = true) ∧
    (∀ ext : Except String AnswerJSON,
        (verify_answer_correctness ext "-5" (unicodeMinus ++ "5")).2 = true) := by
  refine ⟨by decide, by decide, by decide, by decide, ?_, ?_⟩
  · intro ext fb; cases ext <;> rfl
  · intro ext; cases ext <;> rfl

/-- C5 (counterexample): on the empty submission the Relevance Gate's reason
string is "Empty submission" (capital E), not the claimed "empty submission". -/
theorem check_relevance_empty_reason_capitalized :
    check_relevance (.ok ⟨some true, some "x"⟩) "" "problem"
      = ((false, "Empty submission"), false) ∧
    ("Empty submission" : String) ≠ "empty submission" := by
  decide

/-- C5 (amended): empty or whitespace-only text yields
`(false, "Empty submission")` with no external call, and when the external
classification call raises the gate fails open with
`(true, "Relevance check error — defaulting to relevant")`. -/
theorem check_relevance_empty_and_failopen
    (ext : Except String RelevanceJSON) (e s p : String) :
    ((s = "" ∨ pystrip s = "") →
        check_relevance ext s p = ((false, "Empty submission"), false)) ∧
    (¬ (s = "" ∨ pystrip s = "") → ext = .error e →
        check_relevance ext s p
          = ((true, "Relevance check error — defaulting to relevant"), true)) := by
  constructor
  · intro h
    unfold check_relevance
    rw [if_pos h]
  · intro h he
    subst he
    unfold check_relevance
    rw [if_neg h]

/-- Witness for the amended C5 at concrete inputs: whitespace-only text, and a
raising classifier on non-empty text. -/
theorem check_relevance_empty_and_failopen_witness :
    check_relevance (.ok ⟨some true, some "x"⟩) "   " "problem"
      = ((false, "Empty submission"), false) ∧
    check_relevance (.error "ConnectionError") "3+4=7" "problem"
      = ((true, "Relevance check error — defaulting to relevant"), true) :=
  ⟨(check_relevance_empty_and_failopen (.ok ⟨some true, some "x"⟩)
      "ConnectionError" "   " "problem").1 (by decide),
   (check_relevance_empty_and_failopen (.error "ConnectionError")
      "ConnectionError" "3+4=7" "problem").2 (by decide) rfl⟩

/-- C7: when the SELECT returns zero joined rows the route raises 404
"No problem submissions found" and the database state is unchanged — the
DELETE, the INSERTs and the status UPDATE are all issued after this check. -/
theorem grade_submission_not_found (env : GradingEnv) (db : DB) (sid : Int)
    (pid : Option Int) (h : fetchRows db sid pid = []) :
    grade_submission env db sid pid
      = (.error { status_code := 404, detail := "No problem submissions found" }, db) := by
  simp [grade_submission, h]

/-- Witness for C7: a submission id with no matching rows is rejected with 404
and no write. -/
theorem grade_submission_not_found_witness :
    grade_submission envStub dbOtherSubmission 1 none
      = (.error { status_code := 404, detail := "No problem submissions found" },
         dbOtherSubmission) :=
  grade_submission_not_found envStub dbOtherSubmission 1 none (by decide)

/-- C8: on empty or whitespace-only student solution the Logical-Flow Verifier
returns exactly the zero verdict with error summary "No solution steps found"
and performs no external call. -/
theorem logic_verifier_empty_input (ext : Except String LogicJSON)
    (s ref ans : String) (h : s = "" ∨ pystrip s = "") :
    verify_solution_logical_flow ext s ref ans
      = (.ok { logical_score := 0, step_count := 0, valid_steps := 0,
               first_error_step_index := 0,
               error_summary := some "No solution steps found" }, false) := by
  unfold verify_solution_logical_flow
  rw [if_pos h]

/-- Witness for C8 at a whitespace-only solution. -/
theorem logic_verifier_empty_input_witness :
    verify_solution_logical_flow (.ok ⟨some 1, some 3, some 3, some 0, some "x"⟩)
      "  " "ref" "7"
      = (.ok { logical_score := 0, step_count := 0, valid_steps := 0,
               first_error_step_index := 0,
               error_summary := some "No solution steps found" }, false) :=
  logic_verifier_empty_input _ "  " "ref" "7" (by decide)

/-- C9: when the capability returns a negative `first_error_step_index` (the
-1 convention) on a successful call, the verifier normalizes the index to 0
and clears the (non-empty) error summary; and every `.ok` verdict the verifier
returns, on any path, has a non-negative index. -/
theorem logic_verifier_nonneg_index :
    (∀ (j : LogicJSON) (s ref ans : String),
        ¬ (s = "" ∨ pystrip s = "") →
        j.first_error_step_index.getD (-1) < 0 →
        ∃ v, verify_solution_logical_flow (.ok j) s ref ans = (.ok v, true) ∧
          v.first_error_step_index = 0 ∧
          (j.error_summary = none → v.error_summary = none) ∧
          (∀ t, j.error_summary = some t → t ≠ "" → v.error_summary = none)) ∧
    (∀ (ext : Except String LogicJSON) (s ref ans : String) (v : LogicVerdict),
        (verify_solution_logical_flow ext s ref ans).1 = .ok v →
        0 ≤ v.first_error_step_index) := by
  constructor
  · intro j s ref ans hne hidx
    unfold verify_solution_logical_flow
    rw [if_neg hne]
    refine ⟨_, rfl, ?_, ?_, ?_⟩
    · simp [hidx]
    · intro hnone
      simp [hidx, hnone, optStrTruthy]
    · intro t ht htne
      simp [hidx, ht, optStrTruthy, htne]
  · intro ext s ref ans v h
    unfold verify_solution_logical_flow at h
    by_cases hs : s = "" ∨ pystrip s = ""
    · rw [if_pos hs] at h
      simp only [Except.ok.injEq] at h
      rw [← h]
    · rw [if_neg hs] at h
      cases ext with
      | error e => simp at h
      | ok j =>
        simp only [Except.ok.injEq] at h
        rw [← h]
        by_cases hidx : j.first_error_step_index.getD (-1) < 0
        · simp [hidx]
        · simp [hidx]
          omega

/-- Witness for C9: a capability verdict with index -1 and a spurious summary
is normalized on the non-empty solution "step one". -/
theorem logic_verifier_nonneg_index_witness :
    ∃ v, verify_solution_logical_flow
        (.ok ⟨some 1, some 2, some 2, some (-1), some "spurious"⟩)
        "step one" "ref" "7" = (.ok v, true) ∧
      v.first_error_step_index = 0 ∧
      ((⟨some 1, some 2, some 2, some (-1), some "spurious"⟩ : LogicJSON).error_summary = none →
        v.error_summary = none) ∧
      (∀ t, (⟨some 1, some 2, some 2, some (-1), some "spurious"⟩ : LogicJSON).error_summary = some t →
        t ≠ "" → v.error_summary = none) :=
  logic_verifier_nonneg_index.1 ⟨some 1, some 2, some 2, some (-1), some "spurious"⟩
    "step one" "ref" "7" (by decide) (by decide)

/-- Helper: the final proof-mode flag is the extractor's flag OR the keyword
heuristic on the problem text. -/
theorem isProofFor_eq (env : GradingEnv) (r : FetchedRow) :
    isProofFor env r = ((structureOf env r).1.2.2 || hasProofKeyword r.problem_text) := by
  unfold isProofFor
  by_cases h1 : (structureOf env r).1.2.2 <;> by_cases h2 : r.problem_text = "" <;>
    simp [h1, h2]
  decide

/-- C6: when the Relevance Gate verdict for a row is not relevant, the
orchestrator produces a zero-score row (percentage 0, final_score 0) with the
explanatory feedback message, and enters none of the Structure Extractor,
Answer Verifier, Logical-Flow Verifier, or Score Composer stages. -/
theorem irrelevant_short_circuit (env : GradingEnv) (sid : Int) (r : FetchedRow)
    (h : (relevanceOf env r).1 = false) :
    (processRow env sid r).1.percentage = 0 ∧
    (processRow env sid r).1.final_score = 0 ∧
    (processRow env sid r).1.answer_is_correct = false ∧
    (processRow env sid r).1.hint_provided =
      "Your submission does not appear to be an attempt at the assigned problem. Reason: "
        ++ (relevanceOf env r).2 ∧
    (processRow env sid r).1.error_summary =
      some ("Submission irrelevant: " ++ (relevanceOf env r).2) ∧
    (processRow env sid r).2.extractorInvoked = false ∧
    (processRow env sid r).2.answerVerifierInvoked = false ∧
    (processRow env sid r).2.answerExtCalled = false ∧
    (processRow env sid r).2.logicVerifierInvoked = false ∧
    (processRow env sid r).2.composerInvoked = false := by
  simp only [relevanceOf] at h
  simp [processRow, relevanceOf, h]

/-- Witness for C6: the off-topic classifier verdict short-circuits the
calculation row. -/
theorem irrelevant_short_circuit_witness :
    (processRow envIrrelevant 1 rowCalc).1.percentage = 0 ∧
    (processRow envIrrelevant 1 rowCalc).1.final_score = 0 ∧
    (processRow envIrrelevant 1 rowCalc).1.answer_is_correct = false ∧
    (processRow envIrrelevant 1 rowCalc).1.hint_provided =
      "Your submission does not appear to be an attempt at the assigned problem. Reason: "
        ++ (relevanceOf envIrrelevant rowCalc).2 ∧
    (processRow envIrrelevant 1 rowCalc).1.error_summary =
      some ("Submission irrelevant: " ++ (relevanceOf envIrrelevant rowCalc).2) ∧
    (processRow envIrrelevant 1 rowCalc).2.extractorInvoked = false ∧
    (processRow envIrrelevant 1 rowCalc).2.answerVerifierInvoked = false ∧
    (processRow envIrrelevant 1 rowCalc).2.answerExtCalled = false ∧
    (processRow envIrrelevant 1 rowCalc).2.logicVerifierInvoked = false ∧
    (processRow envIrrelevant 1 rowCalc).2.composerInvoked = false :=
  irrelevant_short_circuit envIrrelevant 1 rowCalc (by decide)

/-- C10: a relevant row graded in proof mode (extractor flag or proof keyword)
never invokes the answer-equivalence capability; the orchestrator substitutes
the fixed verdict `{is_correct: true, confidence: 1.0, match_type:
"proof_bypass"}`, which is what gets persisted. -/
theorem proof_mode_bypasses_answer_verifier (env : GradingEnv) (sid : Int)
    (r : FetchedRow) (hrel : (relevanceOf env r).1 = true)
    (hp : isProofFor env r = true) :
    (processRow env sid r).2.answerExtCalled = false ∧
    (processRow env sid r).2.answerVerifierInvoked = false ∧
    (processRow env sid r).2.arUsed =
      some { is_correct := true, confidence := 1,
             match_type := some "proof_bypass", reasoning := none } ∧
    (processRow env sid r).1.answer_is_correct = true ∧
    (processRow env sid r).1.answer_correctness = 1 ∧
    isProofFor env r = ((structureOf env r).1.2.2 || hasProofKeyword r.problem_text) := by
  simp only [relevanceOf] at hrel
  refine ⟨?_, ?_, ?_, ?_, ?_, isProofFor_eq env r⟩ <;>
    simp [processRow, relevanceOf, hrel, hp]

/-- Witness for C10: a relevant submission whose problem statement says
"Prove that ...". -/
theorem proof_mode_bypasses_answer_verifier_witness :
    (processRow envHappy 1 rowProof).2.answerExtCalled = false ∧
    (processRow envHappy 1 rowProof).2.answerVerifierInvoked = false ∧
    (processRow envHappy 1 rowProof).2.arUsed =
      some { is_correct := true, confidence := 1,
             match_type := some "proof_bypass", reasoning := none } ∧
    (processRow envHappy 1 rowProof).1.answer_is_correct = true ∧
    (processRow envHappy 1 rowProof).1.answer_correctness = 1 ∧
    isProofFor envHappy rowProof =
      ((structureOf envHappy rowProof).1.2.2 || hasProofKeyword rowProof.problem_text) :=
  proof_mode_bypasses_answer_verifier envHappy 1 rowProof (by decide) (by decide)

/-- C2 (counterexample): with both verifier capabilities raising, grading of
submission 1 still completes with "Grading completed" and persists one
GradingResult row built from the default verdicts — the operation does not
abort and a row is persisted, contradicting the claim. -/
theorem verifier_error_does_not_abort :
    envVerifierDown.answer "7" "7" = .error "boom" ∧
    envVerifierDown.logic "step one\nstep two" "3+4=7" "7" = .error "boom2" ∧
    (grade_submission envVerifierDown dbOne 1 none).1
      = .ok { submission_id := 1, message := "Grading completed" } ∧
    (grade_submission envVerifierDown dbOne 1 none).2.grading_results.map
        (fun g => (g.submission_id, g.problem_id, g.answer_is_correct, g.error_summary))
      = [(1, 7, false, some "Evaluation failed")] := by
  decide

/-- C2 (amended): each verifier re-raises a capability error as an explicit
RuntimeError with a descriptive message, but the orchestrator catches it and
continues with default verdicts: answer `{is_correct: false, confidence:
0.0}`, logic `{logical_score: 0.0, ..., error_summary: "Evaluation failed"}`,
and those defaults are what the persisted row carries. -/
theorem verifier_errors_propagate_then_absorbed :
    (∀ (e sa ca : String), sa ≠ "" → ca ≠ "" →
        verify_answer_correctness (.error e) sa ca
          = (.error ("Answer verification failed — OpenAI API error: " ++ e), true)) ∧
    (∀ (e s ref ans : String), ¬ (s = "" ∨ pystrip s = "") →
        verify_solution_logical_flow (.error e) s ref ans
          = (.error ("Solution evaluation failed — OpenAI API error: " ++ e), true)) ∧
    (∀ (env : GradingEnv) (sid : Int) (r : FetchedRow) (e : String),
        (relevanceOf env r).1 = true →
        isProofFor env r = false →
        env.answer (structureOf env r).1.1 r.correct_answer = .error e →
        (processRow env sid r).1.answer_is_correct = false ∧
        (processRow env sid r).1.answer_correctness = 0) ∧
    (∀ (env : GradingEnv) (sid : Int) (r : FetchedRow) (e : String),
        (relevanceOf env r).1 = true →
        env.logic (structureOf env r).1.2.1 (pyOr r.ref_solution "")
            (pyOr r.correct_answer "") = .error e →
        ¬ ((structureOf env r).1.2.1 = "" ∨ pystrip (structureOf env r).1.2.1 = "") →
        (processRow env sid r).1.logical_flow_score = 0 ∧
        (processRow env sid r).1.error_summary = some "Evaluation failed") := by
  refine ⟨?_, ?_, ?_, ?_⟩
  · intro e sa ca h1 h2
    unfold verify_answer_correctness
    rw [if_neg (by simp [h1, h2])]
  · intro e s ref ans h
    unfold verify_solution_logical_flow
    rw [if_neg h]
  · intro env sid r e hrel hp hae
    simp only [relevanceOf] at hrel
    by_cases hemp : (structureOf env r).1.1 = "" ∨ r.correct_answer = "" <;>
      simp [processRow, relevanceOf, hrel, hp, verify_answer_correctness, hemp, hae]
  · intro env sid r e hrel hle hsteps
    simp only [relevanceOf] at hrel
    simp [processRow, relevanceOf, hrel, verify_solution_logical_flow, hsteps, hle]

/-- Witness for the amended C2 at concrete inputs: the raising capabilities of
`envVerifierDown` on the calculation row. -/
theorem verifier_errors_propagate_then_absorbed_witness :
    verify_answer_correctness (.error "boom") "7" "42"
      = (.error ("Answer verification failed — OpenAI API error: " ++ "boom"), true) ∧
    verify_solution_logical_flow (.error "boom2") "a step" "ref" "42"
      = (.error ("Solution evaluation failed — OpenAI API error: " ++ "boom2"), true) ∧
    ((processRow envVerifierDown 1 rowCalc).1.answer_is_correct = false ∧
      (processRow envVerifierDown 1 rowCalc).1.answer_correctness = 0) ∧
    ((processRow envVerifierDown 1 rowCalc).1.logical_flow_score = 0 ∧
      (processRow envVerifierDown 1 rowCalc).1.error_summary = some "Evaluation failed") :=
  ⟨verifier_errors_propagate_then_absorbed.1 "boom" "7" "42" (by decide) (by decide),
   verifier_errors_propagate_then_absorbed.2.1 "boom2" "a step" "ref" "42" (by decide),
   verifier_errors_propagate_then_absorbed.2.2.1 envVerifierDown 1 rowCalc "boom"
     (by decide) (by decide) (by decide),
   verifier_errors_propagate_then_absorbed.2.2.2 envVerifierDown 1 rowCalc "boom2"
     (by decide) (by decide) (by decide)⟩

/-- Helper: mapping through a `filterMap` whose produced elements agree with
`f` on the key yields a sublist of the keys. -/
theorem filterMap_map_sublist {α β γ : Type} (j : α → Option β) (f : α → γ)
    (g : β → γ) (h : ∀ a b, j a = some b → g b = f a) :
    ∀ l : List α, ((l.filterMap j).map g).Sublist (l.map f) := by
  intro l
  induction l with
  | nil => simp
  | cons a l ih =>
    rw [List.filterMap_cons, List.map_cons]
    cases hj : j a with
    | none => exact ih.cons (f a)
    | some b =>
      rw [List.map_cons, h a b hj]
      exact ih.cons₂ (f a)

/-- Helper: if the keys of a list are pairwise distinct, at most one element
matches any given key. -/
theorem filter_length_le_one_of_nodup_map {α β : Type} [DecidableEq β]
    (f : α → β) :
    ∀ l : List α, (l.map f).Nodup → ∀ y : β,
      (l.filter (fun a => f a == y)).length ≤ 1 := by
  intro l
  induction l with
  | nil => intro _ y; simp
  | cons a l ih =>
    intro h y
    rw [List.map_cons, List.nodup_cons] at h
    by_cases hy : f a = y
    · have hnil : l.filter (fun x => f x == y) = [] := by
        rw [List.filter_eq_nil_iff]
        intro x hx
        simp only [beq_iff_eq]
        intro hfx
        exact h.1 (hy ▸ hfx ▸ List.mem_map_of_mem f hx)
      rw [List.filter_cons]
      simp [hy, hnil]
    · rw [List.filter_cons, if_neg (by simp [hy])]
      exact ih h.2 y

/-- Helper: filtering `problem_submissions` on a fixed submission id leaves
pairwise-distinct problem ids whenever `(submission_id, problem_id)` pairs are
pairwise distinct (the table's unique constraint). -/
theorem nodup_pid_of_filter (l : List PSRow) (sid : Int) (q : PSRow → Bool)
    (h : (l.map fun p => (p.submission_id, p.problem_id)).Nodup) :
    ((l.filter (fun p => p.submission_id == sid && q p)).map
      (fun p => p.problem_id)).Nodup := by
  have h1 : ((l.filter (fun p => p.submission_id == sid && q p)).map
      (fun p => (p.submission_id, p.problem_id))).Nodup :=
    List.Nodup.sublist ((List.filter_sublist l).map _) h
  have h2 : (l.filter (fun p => p.submission_id == sid && q p)).map
      (fun p => (p.submission_id, p.problem_id))
      = ((l.filter (fun p => p.submission_id == sid && q p)).map
          (fun p => p.problem_id)).map (fun x => (sid, x)) := by
    rw [List.map_map]
    apply List.map_congr_left
    intro p hp
    have hm := List.of_mem_filter hp
    simp only [Bool.and_eq_true, beq_iff_eq] at hm
    simp [hm.1]
  rw [h2] at h1
  exact List.Nodup.of_map _ h1

/-- Helper: the fetched rows of a submission have pairwise-distinct problem
ids, given the `(submission_id, problem_id)` uniqueness of
`problem_submissions`. -/
theorem fetchRows_pid_nodup (db : DB) (sid : Int) (pid : Option Int)
    (h : (db.problem_submissions.map fun p => (p.submission_id, p.problem_id)).Nodup) :
    ((fetchRows db sid pid).map (fun r => r.problem_id)).Nodup := by
  unfold fetchRows
  have base := nodup_pid_of_filter db.problem_submissions sid
    (fun p => if pidTruthy pid then p.problem_id == pid.getD 0 else true) h
  refine List.Nodup.sublist (filterMap_map_sublist _ _ _ ?_ _) base
  intro p b hb
  rw [Option.map_eq_some'] at hb
  obtain ⟨o, -, rfl⟩ := hb
  rfl

/-- Helper: every produced row carries the graded submission's id and its
fetched row's problem id, on both orchestrator branches. -/
theorem processRow_ids (env : GradingEnv) (sid : Int) (r : FetchedRow) :
    (processRow env sid r).1.submission_id = sid ∧
    (processRow env sid r).1.problem_id = r.problem_id := by
  by_cases h : (check_relevance (env.relevance (textToCheck r) r.problem_text)
      (textToCheck r) r.problem_text).1.1 = true <;>
    simp [processRow, h]

/-- Helper: the successful run of the route in closed form. -/
theorem grade_submission_eq (env : GradingEnv) (db : DB) (sid : Int)
    (pid : Option Int) (hne : fetchRows db sid pid ≠ []) :
    grade_submission env db sid pid =
      (.ok { submission_id := sid, message := "Grading completed" },
       { db with
         grading_results :=
           (db.grading_results.filter (fun g => !(g.submission_id == sid)))
             ++ (fetchRows db sid pid).map (fun r => (processRow env sid r).1),
         test_submissions :=
           db.test_submissions.map (fun t =>
             if t.submission_id == sid then { t with status := "graded" } else t) }) := by
  have hI : (fetchRows db sid pid).isEmpty = false := List.isEmpty_eq_false.mpr hne
  simp [grade_submission, hI]

/-- C3: with at least one fetched row (and the unique `(submission, problem)`
constraint of `problem_submissions`), a grade call succeeds, and afterwards
the grading results of the submission are exactly one freshly inserted row per
fetched row (every prior row for that submission is gone), at most one result
exists per `(submission, problem)` pair, and re-grading leaves the
submission's result set (hence its row count) unchanged. -/
theorem regrade_delete_then_insert (env : GradingEnv) (db : DB) (sid : Int)
    (pid : Option Int)
    (hnd : (db.problem_submissions.map fun p => (p.submission_id, p.problem_id)).Nodup)
    (hne : fetchRows db sid pid ≠ []) :
    ∃ db1 resp,
      grade_submission env db sid pid = (.ok resp, db1) ∧
      db1.grading_results.filter (fun g => g.submission_id == sid)
        = (fetchRows db sid pid).map (fun r => (processRow env sid r).1) ∧
      (∀ p : Int,
        (db1.grading_results.filter
          (fun g => g.submission_id == sid && g.problem_id == p)).length ≤ 1) ∧
      ∃ db2 resp2,
        grade_submission env db1 sid pid = (.ok resp2, db2) ∧
        db2.grading_results.filter (fun g => g.submission_id == sid)
          = db1.grading_results.filter (fun g => g.submission_id == sid) := by
  have hids := fun r => processRow_ids env sid r
  have hfil : ∀ old : List GRRow,
      ((old.filter (fun g => !(g.submission_id == sid)))
          ++ (fetchRows db sid pid).map (fun r => (processRow env sid r).1)).filter
        (fun g => g.submission_id == sid)
        = (fetchRows db sid pid).map (fun r => (processRow env sid r).1) := by
    intro old
    rw [List.filter_append, List.filter_filter]
    have hz : (old.filter
        (fun g => (g.submission_id == sid) && !(g.submission_id == sid))) = [] := by
      rw [List.filter_eq_nil_iff]
      intro g _
      simp
    have hs : ((fetchRows db sid pid).map (fun r => (processRow env sid r).1)).filter
        (fun g => g.submission_id == sid)
        = (fetchRows db sid pid).map (fun r => (processRow env sid r).1) := by
      rw [List.filter_eq_self]
      intro g hg
      obtain ⟨r, -, rfl⟩ := List.mem_map.mp hg
      simp [(hids r).1]
    rw [hz, hs, List.nil_append]
  refine ⟨_, _, grade_submission_eq env db sid pid hne, hfil db.grading_results, ?_, ?_⟩
  · intro p
    have hsplit : ∀ l : List GRRow,
        l.filter (fun g => g.submission_id == sid && g.problem_id == p)
          = (l.filter (fun g => g.submission_id == sid)).filter
              (fun g => g.problem_id == p) := by
      intro l
      rw [List.filter_filter]
      apply List.filter_congr
      intro g _
      rw [Bool.and_comm]
    rw [hsplit, hfil db.grading_results]
    apply filter_length_le_one_of_nodup_map (fun g : GRRow => g.problem_id)
    rw [List.map_map]
    have hmm : (fetchRows db sid pid).map
        ((fun g : GRRow => g.problem_id) ∘ (fun r => (processRow env sid r).1))
        = (fetchRows db sid pid).map (fun r => r.problem_id) :=
      List.map_congr_left (fun r _ => (hids r).2)
    rw [hmm]
    exact fetchRows_pid_nodup db sid pid hnd
  · have hfetch : fetchRows
        ({ db with
           grading_results :=
             (db.grading_results.filter (fun g => !(g.submission_id == sid)))
               ++ (fetchRows db sid pid).map (fun r => (processRow env sid r).1),
           test_submissions :=
             db.test_submissions.map (fun t =>
               if t.submission_id == sid then { t with status := "graded" } else t) } : DB)
        sid pid = fetchRows db sid pid := rfl
    have hne1 : fetchRows
        ({ db with
           grading_results :=
             (db.grading_results.filter (fun g => !(g.submission_id == sid)))
               ++ (fetchRows db sid pid).map (fun r => (processRow env sid r).1),
           test_submissions :=
             db.test_submissions.map (fun t =>
               if t.submission_id == sid then { t with status := "graded" } else t) } : DB)
        sid pid ≠ [] := by
      rw [hfetch]
      exact hne
    refine ⟨_, _, grade_submission_eq env _ sid pid hne1, ?_⟩
    rw [hfil db.grading_results]
    exact hfil _

/-- Witness for C3: grading submission 1 of `dbOne` (which holds a stale
result for a previously-associated problem) replaces the results wholesale and
re-grading is idempotent. -/
theorem regrade_delete_then_insert_witness :
    ∃ db1 resp,
      grade_submission envHappy dbOne 1 none = (.ok resp, db1) ∧
      db1.grading_results.filter (fun g => g.submission_id == 1)
        = (fetchRows dbOne 1 none).map (fun r => (processRow envHappy 1 r).1) ∧
      (∀ p : Int,
        (db1.grading_results.filter
          (fun g => g.submission_id == 1 && g.problem_id == p)).length ≤ 1) ∧
      ∃ db2 resp2,
        grade_submission envHappy db1 1 none = (.ok resp2, db2) ∧
        db2.grading_results.filter (fun g => g.submission_id == 1)
          = db1.grading_results.filter (fun g => g.submission_id == 1) :=
  regrade_delete_then_insert envHappy dbOne 1 none (by decide) (by decide)

end MathTutor
